import Mathlib

/-!
Shallow embedding of the w2v_did repository (spoken-dialect identification
fine-tuning glue code) and proofs about it.

The embedded sources are:
* `src/klaam-modified/run_classifier.py` — the `DataCollatorCTCWithPadding`
  collator, the `main` argument/checkpoint logic and
  `speech_file_to_array_fn`;
* `src/com_voice_speech_corpus5/com_voice_speech_corpus5.py` — `map_to_array`
  and `ComVoiceSpeechCorpus5._generate_examples`;
* `src/DidMain.py` — the optimizer / loss-function selection and the
  multi-GPU wrapping of the `__main__` block.

Python-level failures (raised exceptions) are embedded as `Except PyErr`.
External library calls that the repository delegates to (audio decoding,
the HuggingFace processor's `pad`, `transformers.get_last_checkpoint`,
Python's seeded `random.Random(4).shuffle`) are modelled from the spec's
description of their role; each such definition carries a doc comment
saying so.
-/

namespace W2vDid

/-- Python exceptions that the embedded code can raise. -/
inductive PyErr where
  | typeError (msg : String)
  | valueError (msg : String)
  | indexError (msg : String)
  | unboundLocalError (name : String)
  | systemExit (msg : String)
deriving DecidableEq

/-! ### Python string primitives

The embedded code uses `str.endswith`, `str.startswith`, `str.split` and
digit parsing. They are defined here over the character list of the
string, matching the Python semantics. -/

/-- Python's `s.endswith(suf)`. -/
def pyEndsWith (s suf : String) : Bool :=
  s.data.drop (s.data.length - suf.data.length) == suf.data

/-- Python's `s.startswith(pre)`. -/
def pyStartsWith (s pre : String) : Bool :=
  s.data.take pre.data.length == pre.data

/-- Python's `s.split(sep)` for a one-character separator, on the
character list: always at least one (possibly empty) part. -/
def splitOnChar (c : Char) : List Char → List (List Char)
  | [] => [[]]
  | x :: xs =>
    let r := splitOnChar c xs
    if x == c then [] :: r
    else
      match r with
      | [] => [[x]]
      | y :: ys => (x :: y) :: ys

/-- Python's `s.split(sep)` for a one-character separator. -/
def pySplit (sep : Char) (s : String) : List String :=
  (splitOnChar sep s.data).map String.mk

/-- The numeric value of a digit string. -/
def digitsToNat (l : List Char) : Nat :=
  l.foldl (fun acc c => acc * 10 + (c.toNat - '0'.toNat)) 0

/-! ### `run_classifier.py` : `DataCollatorCTCWithPadding` -/

/-- One element of the `features` list handed to the collator:
an `input_values` sample sequence and an integer class label
(the value `int(feature["labels"])`). -/
structure Feature where
  input_values : List Float
  labels : Int

/-- CPython semantics of the list item assignment `xs[i] = v`:
a negative index is shifted by the length, and an index outside
`[-len, len)` raises `IndexError`. -/
def pyListSet (xs : List α) (i : Int) (v : α) : Except PyErr (List α) :=
  let n : Int := xs.length
  let j : Int := if i < 0 then i + n else i
  if 0 ≤ j ∧ j < n then .ok (xs.set j.toNat v)
  else .error (.indexError "list assignment index out of range")

/-- `onehot(lbl)` from `DataCollatorCTCWithPadding.__call__`:
build `[0] * number_of_labels` and assign `1` at index `int(lbl)`. -/
def onehot (number_of_labels : Nat) (lbl : Int) : Except PyErr (List Nat) :=
  pyListSet (List.replicate number_of_labels 0) lbl 1

/-- The list comprehension
`[onehot(feature["labels"]) for feature in features]`:
left to right, stopping at the first raised exception. -/
def onehotAll (number_of_labels : Nat) : List Feature → Except PyErr (List (List Nat))
  | [] => .ok []
  | f :: fs =>
    match onehot number_of_labels f.labels with
    | .error e => .error e
    | .ok o =>
      match onehotAll number_of_labels fs with
      | .error e => .error e
      | .ok os => .ok (o :: os)

/-- The common row length the processor pads a batch to: the longest row,
rounded up to a multiple of `pad_to_multiple_of` when that is positive. -/
def padTarget (pad_to_multiple_of : Nat) (rows : List (List Float)) : Nat :=
  let longest := (rows.map List.length).foldr max 0
  if pad_to_multiple_of = 0 then longest
  else pad_to_multiple_of * ((longest + pad_to_multiple_of - 1) / pad_to_multiple_of)

/-- Modelled from the spec: `CustomWav2Vec2Processor.pad` (the repository's
`processors.py` is not under `src/`); the spec describes collation as
"packing a batch of variable-length audio samples into a fixed-shape tensor
via padding", with padding value `0.0` and `pad_to_multiple_of` rounding. -/
def processorPad (pad_to_multiple_of : Nat) (rows : List (List Float)) : List (List Float) :=
  rows.map (fun r => r ++ List.replicate (padTarget pad_to_multiple_of rows - r.length) 0.0)

/-- The fields of `DataCollatorCTCWithPadding` that its `__call__` reads. -/
structure DataCollatorCTCWithPadding where
  pad_to_multiple_of : Nat := 160000
  number_of_labels : Nat := 5

/-- The batch returned by the collator: the padded `input_values` rows and
the `labels` tensor rows. -/
structure Batch where
  input_values : List (List Float)
  labels : List (List Nat)

/-- `DataCollatorCTCWithPadding.__call__`: extract the `input_values`,
one-hot encode every label (raising `IndexError` on an out-of-range label),
pad the inputs to a common length and return the batch. -/
def DataCollatorCTCWithPadding.call (self : DataCollatorCTCWithPadding)
    (features : List Feature) : Except PyErr Batch :=
  let input_features := features.map (fun f => f.input_values)
  match onehotAll self.number_of_labels features with
  | .error e => .error e
  | .ok output_features =>
    .ok { input_values := processorPad self.pad_to_multiple_of input_features,
          labels := output_features }

/-- The one-hot vector of length `n` with a `1` exactly at index `k`. -/
def oneHotVec : Nat → Nat → List Nat
  | 0, _ => []
  | n + 1, 0 => 1 :: List.replicate n 0
  | n + 1, k + 1 => 0 :: oneHotVec n k

/-! ### `com_voice_speech_corpus5.py` : the dataset loader -/

/-- The directory tree the generator walks: the listing of `archive_path`
(`os.listdir` order), which entries are directories, and each
subdirectory's own listing. -/
structure FS where
  rootEntries : List String
  isDir : String → Bool
  subEntries : String → List String

/-- One yielded example: a file path and the name of its containing
subdirectory. -/
structure DatasetExample where
  file : String
  label : String
deriving DecidableEq

/-- The collection loop of `_generate_examples`: for each entry `c` of
`archive_path` that is a directory, take the first 4000 entries of
`archive_path/c`, keep those ending in `.mp3`, and record
`(f'{wav_dir}/{c}/{file}', c)`, in listing order. -/
def collectPairs (archive_path : String) (fs : FS) : List (String × String) :=
  fs.rootEntries.flatMap (fun c =>
    if fs.isDir c then
      (((fs.subEntries c).take 4000).filter (fun file => pyEndsWith file ".mp3")).map
        (fun file => (archive_path ++ "/" ++ c ++ "/" ++ file, c))
    else [])

/-- A small linear congruential step standing in for the pseudo-random
stream of Python's `random.Random`. -/
def lcg (s : Nat) : Nat := (1103515245 * s + 12345) % 2147483648

/-- Selection shuffle: with `fuel` at least the list's length, repeatedly
pick the index `s % length` (advancing the stream with `lcg`), move that
element to the front and continue on the rest. -/
def shuffleGo : Nat → Nat → List α → List α
  | 0, _, xs => xs
  | _ + 1, _, [] => []
  | fuel + 1, s, x :: t =>
    let xs := x :: t
    let j := s % xs.length
    have hj : j < xs.length := Nat.mod_lt _ (by simp [xs])
    xs.get ⟨j, hj⟩ :: shuffleGo fuel (lcg s) (xs.eraseIdx j)

/-- Modelled from the spec: Python's `random.Random(seed).shuffle`,
a deterministic in-place permutation of the list driven by a pseudo-random
stream. `random.Random(seed)` seeds from `seed` when one is given and only
falls back to ambient entropy (`entropy` here) when it is not. -/
def pyShuffle (seed : Option Nat) (entropy : Nat) (xs : List α) : List α :=
  shuffleGo xs.length (lcg (match seed with | some s => s | none => entropy)) xs

/-- `yield str(i), {"file": paths[i], "label": labls[i]}` over the shuffled
pairs. -/
def keyedExamples (data : List (String × String)) : List (String × DatasetExample) :=
  data.enum.map (fun ip => (toString ip.1, { file := ip.2.1, label := ip.2.2 }))

/-- `ComVoiceSpeechCorpus5._generate_examples`: collect the `.mp3` paths and
labels, shuffle them with `random.Random(4)`, then unpack
`paths, labls = zip(*data)` — which raises `ValueError` when `data` is
empty — and yield the numbered examples. `entropy` is the ambient
randomness of the run, unused because the seed is fixed to `4`. -/
def generate_examples (entropy : Nat) (archive_path : String) (fs : FS) :
    Except PyErr (List (String × DatasetExample)) :=
  let data := pyShuffle (some 4) entropy (collectPairs archive_path fs)
  match data with
  | [] => .error (.valueError "not enough values to unpack (expected 2, got 0)")
  | _ => .ok (keyedExamples data)

/-! ### `com_voice_speech_corpus5.py` : `map_to_array` -/

/-- An audio file as the decoding libraries see it: its name, its decoded
samples and its native sampling rate. -/
structure AudioFile where
  name : String
  samples : List Float
  rate : Nat

/-- A Python value passed as a keyword argument (only the shapes the
embedded call sites can produce). -/
inductive PyVal where
  | int (i : Int)
  | str (s : String)

/-- Modelled from the spec: `soundfile.read(file, start=…, stop=…)` returns
the samples of the file from position `start` to position `stop` together
with the file's sampling rate; Python raises `TypeError` when the slice
bounds are not integers (they lack `__index__`). -/
def sf_read_dyn (f : AudioFile) (start stop : PyVal) :
    Except PyErr (List Float × Nat) :=
  match start, stop with
  | .int a, .int b =>
    .ok (((f.samples.drop a.toNat).take (b.toNat - a.toNat)), f.rate)
  | _, _ => .error (.typeError "slice indices must be integers or None or have an __index__ method")

/-- A record of the corpus builder's batch: the audio file named by the
`file` field, the `segment` string, and the `speech` field (absent before
`map_to_array` sets it). -/
structure SegRecord where
  file : AudioFile
  segment : String
  speech : Option (List Float)

/-- `map_to_array` from `com_voice_speech_corpus5.py`:
`start, stop = batch['segment'].split('_')` (a `ValueError` unless the
split yields exactly two parts), then
`sf.read(batch["file"], start=start, stop=stop)` with the two split
results — which are strings — and store the result as `batch["speech"]`. -/
def map_to_array (batch : SegRecord) : Except PyErr SegRecord :=
  match pySplit '_' batch.segment with
  | [start, stop] =>
    match sf_read_dyn batch.file (.str start) (.str stop) with
    | .error e => .error e
    | .ok sp => .ok { batch with speech := some sp.1 }
  | _ => .error (.valueError "values to unpack do not match")

/-! ### `run_classifier.py` : `speech_file_to_array_fn` -/

/-- Modelled from the spec: `soundfile.read(file, start=…, stop=…)` with
integer bounds — the samples from `start` to `stop` and the file's
sampling rate (audio decoding is out of scope, delegated to the
library). -/
def sf_read (f : AudioFile) (start stop : Nat) : List Float × Nat :=
  ((f.samples.drop start).take (stop - start), f.rate)

/-- Modelled from the spec: `torchaudio.load` — the whole decoded sample
sequence and the file's sampling rate. -/
def torchaudio_load (f : AudioFile) : List Float × Nat :=
  (f.samples, f.rate)

/-- Modelled from the spec: `librosa.resample(xs, orig_sr, target_sr)` —
the identity at equal rates; at different rates the samples are
re-timed to the target rate (the claims do not depend on the values,
only on what is fed in, so the re-timing is a plain length change). -/
def librosa_resample (xs : List Float) (orig_sr target_sr : Nat) : List Float :=
  if orig_sr = target_sr then xs
  else xs.take (xs.length * target_sr / orig_sr)

/-- A record of the classifier's dataset: the audio file named by `file`,
the `label` column, and the fields `speech_file_to_array_fn` adds. -/
structure SpeechRecord where
  file : AudioFile
  label : String
  speech : Option (List Float)
  sampling_rate : Option Nat
  parent : Option String

/-- `speech_file_to_array_fn` from `run_classifier.py` (with
`start = 0`, `stop = window_length`, `srate = 16_000`):
a `.wav` file is read with `sf.read(file, start=0, stop=window_length*16000)`,
an `.mp3` file is decoded with `torchaudio.load` and truncated to the first
`window_length*16000` samples, and any other file name leaves
`speech_array` unassigned, so the following
`librosa.resample(np.asarray(speech_array), …)` raises
`UnboundLocalError` before `batch["speech"]` is set. -/
def speech_file_to_array_fn (window_length : Nat) (batch : SpeechRecord) :
    Except PyErr SpeechRecord :=
  let start := 0
  let stop := window_length
  let srate := 16000
  if pyEndsWith batch.file.name ".wav" then
    let r := sf_read batch.file (start * srate) (stop * srate)
    .ok { batch with
          speech := some (librosa_resample r.1 r.2 srate),
          sampling_rate := some srate,
          parent := some batch.label }
  else if pyEndsWith batch.file.name ".mp3" then
    let r := torchaudio_load batch.file
    let speech_array := r.1.take (stop * srate)
    .ok { batch with
          speech := some (librosa_resample speech_array r.2 srate),
          sampling_rate := some srate,
          parent := some batch.label }
  else .error (.unboundLocalError "speech_array")

/-! ### `run_classifier.py` : `main` — argument parsing and checkpoints -/

/-- The argument handling at the top of `main`: if `sys.argv` is exactly
the program name plus one argument ending in `.json`, the arguments are
parsed from that JSON file; otherwise `exit(1)`. The result is the JSON
path the three argument sets are parsed from, or the exit status. -/
def mainArgSource (argv : List String) : Except Nat String :=
  if argv.length = 2 ∧ pyEndsWith (argv.getD 1 "") ".json" then
    .ok (argv.getD 1 "")
  else .error 1

/-- `checkpoint-<digits>` entry names, with their step number. -/
def checkpointStep (s : String) : Option Nat :=
  if pyStartsWith s "checkpoint-" then
    let t := s.data.drop 11
    if t.length > 0 && t.all Char.isDigit then some (digitsToNat t) else none
  else none

/-- Modelled from the spec: `transformers.trainer_utils.get_last_checkpoint`
— among the entries of the output directory named `checkpoint-<digits>`,
the one with the largest step, if any. -/
def get_last_checkpoint (entries : List String) : Option String :=
  (entries.filterMap (fun s => (checkpointStep s).map (fun n => (n, s)))).foldl
    (fun acc p =>
      match acc with
      | none => some p
      | some q => if q.1 < p.1 then some p else some q) none
    |>.map Prod.snd

/-- The parts of `main`'s environment that the checkpoint logic reads. -/
structure MainEnv where
  outputDirIsDir : Bool
  outputDirEntries : List String
  doTrain : Bool
  overwriteOutputDir : Bool
  modelNameOrPath : String
  modelNameOrPathIsDir : Bool

/-- The "Detecting last checkpoint" block of `main`: when the output
directory exists, `--do_train` is set and `--overwrite_output_dir` is not,
look for the last checkpoint; a non-empty output directory without one is
a `ValueError`. -/
def detectLastCheckpoint (env : MainEnv) : Except PyErr (Option String) :=
  if env.outputDirIsDir && env.doTrain && !env.overwriteOutputDir then
    match get_last_checkpoint env.outputDirEntries with
    | some c => .ok (some c)
    | none =>
      if env.outputDirEntries.length > 0 then
        .error (.valueError "Output directory already exists and is not empty.")
      else .ok none
  else .ok none

/-- The `resume_from_checkpoint` argument `main` passes to
`trainer.train`: `some arg` when training runs and the call is made with
checkpoint `arg`; `none` when `--do_train` is not set and `trainer.train`
is never called. -/
def trainCheckpointArg (env : MainEnv) : Except PyErr (Option (Option String)) :=
  match detectLastCheckpoint env with
  | .error e => .error e
  | .ok last =>
    if env.doTrain then
      match last with
      | some c => .ok (some (some c))
      | none =>
        .ok (some (if env.modelNameOrPathIsDir then some env.modelNameOrPath else none))
    else .ok none

/-! ### `DidMain.py` : optimizer / loss selection and multi-GPU wrapping -/

/-- `config.general`, as read by `DidMain.py`. -/
structure DidGeneral where
  optimizer : String
  loss_function : String

/-- `config.optimizers['adam']`. -/
structure AdamParams where
  lr : Float
  weight_decay : Float

/-- The configuration fields of `DidMain.py` the selection logic reads,
plus the number of CUDA devices `torch.cuda.device_count()` reports. -/
structure DidConfig where
  general : DidGeneral
  adam : AdamParams
  cudaDeviceCount : Nat

/-- The optimizer object built by `DidMain.py`. -/
inductive Optim where
  | adam (lr weight_decay : Float)

/-- The loss function chosen by `DidMain.py` (negative log-likelihood is
the only accepted one). -/
inductive LossFn where
  | nllLoss

/-- What the `__main__` block of `DidMain.py` has built once it reaches
the training loop. -/
structure DidSetup where
  modelWrapped : Bool
  optimizer : Optim
  lossWrapped : Bool
  loss : LossFn

/-- The `__main__` block of `DidMain.py` up to the construction of the
runner: wrap the model with `DataParallelModel` when more than one CUDA
device is available; accept only `optimizer == 'adam'` (else
`raise SystemExit`), building Adam from the configured `lr` and
`weight_decay`; accept only `loss_function == 'nllLoss'` (else
`raise SystemExit`); wrap the loss with `DataParallelCriterion` when more
than one CUDA device is available. -/
def didMainSetup (cfg : DidConfig) : Except PyErr DidSetup :=
  let modelWrapped := decide (1 < cfg.cudaDeviceCount)
  if cfg.general.optimizer = "adam" then
    let optimizer := Optim.adam cfg.adam.lr cfg.adam.weight_decay
    if cfg.general.loss_function = "nllLoss" then
      let lossWrapped := decide (1 < cfg.cudaDeviceCount)
      .ok { modelWrapped := modelWrapped, optimizer := optimizer,
            lossWrapped := lossWrapped, loss := LossFn.nllLoss }
    else
      .error (.systemExit ("you must specify loss_function for " ++ cfg.general.loss_function))
  else
    .error (.systemExit ("you must specify optimizer for " ++ cfg.general.optimizer))

/-! ### Supporting lemmas -/

theorem oneHotVec_length : ∀ (n k : Nat), (oneHotVec n k).length = n := by
  intro n
  induction n with
  | zero => intro k; rfl
  | succ n ih =>
    intro k
    cases k with
    | zero => simp [oneHotVec]
    | succ k => simp [oneHotVec, ih k]

theorem oneHotVec_getElem? : ∀ (n k j : Nat), j < n →
    (oneHotVec n k)[j]? = some (if j = k then 1 else 0) := by
  intro n
  induction n with
  | zero => intro k j hj; omega
  | succ n ih =>
    intro k j hj
    cases k with
    | zero =>
      cases j with
      | zero => simp [oneHotVec]
      | succ j =>
        simp only [oneHotVec, List.getElem?_cons_succ, List.getElem?_replicate]
        have : j < n := by omega
        simp [this]
    | succ k =>
      cases j with
      | zero => simp [oneHotVec]
      | succ j =>
        simp only [oneHotVec, List.getElem?_cons_succ]
        rw [ih k j (by omega)]
        simp [Nat.succ_inj]

theorem set_replicate_oneHot : ∀ (n k : Nat), k < n →
    (List.replicate n (0 : Nat)).set k 1 = oneHotVec n k := by
  intro n
  induction n with
  | zero => intro k hk; omega
  | succ n ih =>
    intro k hk
    cases k with
    | zero => simp [List.replicate_succ, oneHotVec]
    | succ k =>
      simp only [List.replicate_succ, List.set_cons_succ, oneHotVec]
      rw [ih k (by omega)]

theorem onehot_ok (n : Nat) (i : Int) (h0 : 0 ≤ i) (h1 : i < (n : Int)) :
    onehot n i = .ok (oneHotVec n i.toNat) := by
  have hn : ¬ i < 0 := not_lt.mpr h0
  simp only [onehot, pyListSet, List.length_replicate, if_neg hn]
  rw [if_pos ⟨h0, h1⟩, set_replicate_oneHot n i.toNat (by omega)]

theorem onehot_err (n : Nat) (i : Int) (h : (n : Int) ≤ i ∨ i < -(n : Int)) :
    onehot n i = .error (.indexError "list assignment index out of range") := by
  simp only [onehot, pyListSet, List.length_replicate]
  rcases h with h | h
  · rw [if_neg (by omega : ¬ i < 0), if_neg (by omega : ¬ ((0:Int) ≤ i ∧ i < (n:Int)))]
  · rw [if_pos (by omega : i < 0),
        if_neg (by omega : ¬ ((0:Int) ≤ i + (n:Int) ∧ i + (n:Int) < (n:Int)))]

theorem onehot_error_eq (n : Nat) (i : Int) (e : PyErr)
    (h : onehot n i = .error e) :
    e = .indexError "list assignment index out of range" := by
  simp only [onehot, pyListSet, List.length_replicate] at h
  split at h <;> split at h <;>
    first
    | exact (Except.error.inj h).symm
    | exact absurd h (by simp)

theorem onehotAll_ok (n : Nat) : ∀ (fs : List Feature),
    (∀ f ∈ fs, 0 ≤ f.labels ∧ f.labels < (n : Int)) →
    onehotAll n fs = .ok (fs.map (fun f => oneHotVec n f.labels.toNat)) := by
  intro fs
  induction fs with
  | nil => intro _; rfl
  | cons f fs ih =>
    intro h
    have hf := h f (by simp)
    simp only [onehotAll, onehot_ok n f.labels hf.1 hf.2,
      ih (fun g hg => h g (by simp [hg])), List.map_cons]

theorem onehotAll_err (n : Nat) : ∀ (fs : List Feature) (f : Feature), f ∈ fs →
    ((n : Int) ≤ f.labels ∨ f.labels < -(n : Int)) →
    onehotAll n fs = .error (.indexError "list assignment index out of range") := by
  intro fs
  induction fs with
  | nil => intro f hf; simp at hf
  | cons g fs ih =>
    intro f hf hbad
    rcases List.mem_cons.mp hf with rfl | hf'
    · simp only [onehotAll, onehot_err n f.labels hbad]
    · rcases hg : onehot n g.labels with e | o
      · simp only [onehotAll, hg]
        rw [onehot_error_eq n g.labels e hg]
      · simp only [onehotAll, hg, ih f hf' hbad]

theorem length_le_longest : ∀ (rows : List (List Float)) (r : List Float),
    r ∈ rows → r.length ≤ (rows.map List.length).foldr max 0 := by
  intro rows
  induction rows with
  | nil => intro r hr; simp at hr
  | cons s rows ih =>
    intro r hr
    simp only [List.map_cons, List.foldr_cons]
    rcases List.mem_cons.mp hr with rfl | hr'
    · exact Nat.le_max_left _ _
    · exact le_trans (ih r hr') (Nat.le_max_right _ _)

theorem le_mul_ceil (a m : Nat) (hm : 0 < m) : a ≤ m * ((a + m - 1) / m) := by
  have h1 : m * ((a + m - 1) / m) + (a + m - 1) % m = a + m - 1 :=
    Nat.div_add_mod _ _
  have h2 : (a + m - 1) % m < m := Nat.mod_lt _ hm
  generalize hT : m * ((a + m - 1) / m) = T at h1 ⊢
  generalize hR : (a + m - 1) % m = R at h1 h2
  omega

theorem length_le_padTarget (m : Nat) (rows : List (List Float)) (r : List Float)
    (hr : r ∈ rows) : r.length ≤ padTarget m rows := by
  have h := length_le_longest rows r hr
  unfold padTarget
  by_cases hm : m = 0
  · simpa [hm] using h
  · simp only [hm, if_false]
    exact le_trans h (le_mul_ceil _ m (Nat.pos_of_ne_zero hm))

theorem processorPad_length (m : Nat) (rows : List (List Float)) (r : List Float)
    (hr : r ∈ processorPad m rows) : r.length = padTarget m rows := by
  simp only [processorPad, List.mem_map] at hr
  obtain ⟨r0, hr0, rfl⟩ := hr
  have h := length_le_padTarget m rows r0 hr0
  simp only [List.length_append, List.length_replicate]
  omega

theorem perm_get_cons_eraseIdx : ∀ (xs : List α) (j : Nat) (hj : j < xs.length),
    xs.Perm (xs.get ⟨j, hj⟩ :: xs.eraseIdx j) := by
  intro xs
  induction xs with
  | nil => intro j hj; simp at hj
  | cons x t ih =>
    intro j hj
    cases j with
    | zero => simp
    | succ j =>
      have h' : j < t.length := by simpa using hj
      show (x :: t).Perm (t.get ⟨j, h'⟩ :: x :: t.eraseIdx j)
      exact ((ih j h').cons x).trans (List.Perm.swap _ _ _)

theorem shuffleGo_perm : ∀ (fuel s : Nat) (xs : List α),
    (shuffleGo fuel s xs).Perm xs := by
  intro fuel
  induction fuel with
  | zero => intro s xs; simp [shuffleGo]
  | succ fuel ih =>
    intro s xs
    cases xs with
    | nil => simp [shuffleGo]
    | cons x t =>
      simp only [shuffleGo]
      exact (List.Perm.cons _ (ih (lcg s) _)).trans
        (perm_get_cons_eraseIdx (x :: t) _ _).symm

theorem pyShuffle_perm (seed : Option Nat) (entropy : Nat) (xs : List α) :
    (pyShuffle seed entropy xs).Perm xs :=
  shuffleGo_perm _ _ _

/-! ### Claim theorems -/

/-- C1: for every non-empty feature list whose labels all satisfy
`0 ≤ int(labels) < number_of_labels`, `DataCollatorCTCWithPadding.__call__`
returns a batch whose `input_values` rows all have the same length (one
row per input feature) and whose `labels` rows are exactly the one-hot
vectors of the features' labels, in order. -/
theorem collator_pads_and_one_hot_encodes (self : DataCollatorCTCWithPadding)
    (features : List Feature) (_hne : features ≠ [])
    (hl : ∀ f ∈ features, 0 ≤ f.labels ∧ f.labels < (self.number_of_labels : Int)) :
    ∃ b, self.call features = .ok b ∧
      (∀ r ∈ b.input_values, ∀ r' ∈ b.input_values, r.length = r'.length) ∧
      b.input_values.length = features.length ∧
      b.labels = features.map (fun f => oneHotVec self.number_of_labels f.labels.toNat) := by
  refine ⟨{ input_values :=
              processorPad self.pad_to_multiple_of (features.map (fun f => f.input_values)),
            labels := features.map (fun f => oneHotVec self.number_of_labels f.labels.toNat) },
          ?_, ?_, ?_, rfl⟩
  · simp only [DataCollatorCTCWithPadding.call,
      onehotAll_ok self.number_of_labels features hl]
  · intro r hr r' hr'
    rw [processorPad_length _ _ r hr, processorPad_length _ _ r' hr']
  · simp [processorPad]

/-- Witness for C1 at a concrete batch. -/
theorem collator_pads_and_one_hot_encodes_witness :
    ∃ b, DataCollatorCTCWithPadding.call ⟨2, 5⟩ [⟨[], 2⟩] = .ok b ∧
      (∀ r ∈ b.input_values, ∀ r' ∈ b.input_values, r.length = r'.length) ∧
      b.input_values.length = [(⟨[], 2⟩ : Feature)].length ∧
      b.labels = [(⟨[], 2⟩ : Feature)].map
        (fun f => oneHotVec (⟨2, 5⟩ : DataCollatorCTCWithPadding).number_of_labels f.labels.toNat) :=
  collator_pads_and_one_hot_encodes ⟨2, 5⟩ [⟨[], 2⟩] (by simp)
    (by
      intro f hf
      rw [List.mem_singleton] at hf
      subst hf
      exact ⟨by decide, by decide⟩)

/-- C9: the collator raises `IndexError` for any feature whose label is
`≥ number_of_labels` or `< -number_of_labels`; when every label is in
`[0, number_of_labels)` no error is raised. -/
theorem collator_label_range_errors (self : DataCollatorCTCWithPadding)
    (features : List Feature) :
    ((∃ f ∈ features,
        (self.number_of_labels : Int) ≤ f.labels ∨
        f.labels < -(self.number_of_labels : Int)) →
      self.call features = .error (.indexError "list assignment index out of range")) ∧
    ((∀ f ∈ features, 0 ≤ f.labels ∧ f.labels < (self.number_of_labels : Int)) →
      ∃ b, self.call features = .ok b) := by
  constructor
  · rintro ⟨f, hf, hbad⟩
    simp only [DataCollatorCTCWithPadding.call,
      onehotAll_err self.number_of_labels features f hf hbad]
  · intro hl
    simp only [DataCollatorCTCWithPadding.call,
      onehotAll_ok self.number_of_labels features hl]
    exact ⟨_, rfl⟩

/-- Witness for C9: a label of `7` with five classes raises `IndexError`;
a label of `2` does not. -/
theorem collator_label_range_errors_witness :
    DataCollatorCTCWithPadding.call ⟨2, 5⟩ [⟨[], 7⟩] =
      .error (.indexError "list assignment index out of range") ∧
    (∃ b, DataCollatorCTCWithPadding.call ⟨2, 5⟩ [⟨[], 2⟩] = .ok b) :=
  ⟨(collator_label_range_errors ⟨2, 5⟩ [⟨[], 7⟩]).1
     ⟨⟨[], 7⟩, List.mem_singleton.mpr rfl, Or.inl (by decide)⟩,
   (collator_label_range_errors ⟨2, 5⟩ [⟨[], 2⟩]).2
     (by
       intro f hf
       rw [List.mem_singleton] at hf
       subst hf
       exact ⟨by decide, by decide⟩)⟩

/-- C2 (code bug): `map_to_array` never splices the audio — the two halves
of the `segment` string are passed to `sf.read` without conversion to
integers, so the call raises `TypeError` on the concrete record with
`file = audio.wav`, `segment = "0_16000"`. -/
theorem map_to_array_raises_type_error :
    map_to_array ⟨⟨"audio.wav", [], 16000⟩, "0_16000", none⟩ =
      .error (.typeError "slice indices must be integers or None or have an __index__ method") :=
  rfl

/-- C3 (counterexample): on a directory tree with no matching `.mp3` file
the claim fails — `_generate_examples` does not yield zero examples but
raises `ValueError` at `paths, labls = zip(*data)`, because unpacking
`zip()` of an empty list into two names fails. -/
theorem generator_empty_tree_raises :
    generate_examples 0 "root" ⟨[], fun _ => false, fun _ => []⟩ =
      .error (.valueError "not enough values to unpack (expected 2, got 0)") ∧
    collectPairs "root" ⟨[], fun _ => false, fun _ => []⟩ = [] :=
  ⟨rfl, rfl⟩

/-- C3 (amended): provided at least one `.mp3` file lies among the first
4000 entries of some immediate subdirectory, `_generate_examples` yields
exactly one example per such file — the yielded examples are a
permutation of the `(path, containing-directory)` pairs collected in
listing order — and the yielded keys are `"0", "1", …, "n-1"` in order. -/
theorem generator_yields_each_file_once (entropy : Nat) (archive_path : String)
    (fs : FS) (h : collectPairs archive_path fs ≠ []) :
    ∃ l, generate_examples entropy archive_path fs = .ok l ∧
      (l.map (fun kx => (kx.2.file, kx.2.label))).Perm (collectPairs archive_path fs) ∧
      l.map Prod.fst =
        (List.range (collectPairs archive_path fs).length).map (fun i => toString i) := by
  have hperm : (pyShuffle (some 4) entropy (collectPairs archive_path fs)).Perm
      (collectPairs archive_path fs) := pyShuffle_perm _ _ _
  rcases hd : pyShuffle (some 4) entropy (collectPairs archive_path fs) with _ | ⟨p, rest⟩
  · rw [hd] at hperm
    exact absurd hperm.symm.eq_nil h
  · rw [hd] at hperm
    refine ⟨keyedExamples (p :: rest), ?_, ?_, ?_⟩
    · simp only [generate_examples, hd]
    · have h1 : (keyedExamples (p :: rest)).map (fun kx => (kx.2.file, kx.2.label))
          = p :: rest := by
        simp only [keyedExamples, List.map_map]
        have h2 : ((fun kx : String × DatasetExample => (kx.2.file, kx.2.label)) ∘
            (fun ip : Nat × (String × String) =>
              (toString ip.1, { file := ip.2.1, label := ip.2.2 })))
            = Prod.snd := by
          funext ip
          simp
        rw [h2, List.enum_map_snd]
      rw [h1]
      exact hperm
    · have h1 : (keyedExamples (p :: rest)).map Prod.fst
          = (List.range (p :: rest).length).map (fun i => toString i) := by
        simp only [keyedExamples, List.map_map]
        have h2 : (Prod.fst ∘ (fun ip : Nat × (String × String) =>
            (toString ip.1, ({ file := ip.2.1, label := ip.2.2 } : DatasetExample))))
            = (fun i => toString i) ∘ Prod.fst := by
          funext ip
          rfl
        rw [h2, ← List.map_map, List.enum_map_fst]
      rw [h1, hperm.length_eq]

/-- Witness for the amended C3 at a concrete one-file tree. -/
theorem generator_yields_each_file_once_witness :
    ∃ l, generate_examples 0 "root" ⟨["ESP"], fun _ => true, fun _ => ["a.mp3", "b.txt"]⟩ = .ok l ∧
      (l.map (fun kx => (kx.2.file, kx.2.label))).Perm
        (collectPairs "root" ⟨["ESP"], fun _ => true, fun _ => ["a.mp3", "b.txt"]⟩) ∧
      l.map Prod.fst =
        (List.range (collectPairs "root" ⟨["ESP"], fun _ => true, fun _ => ["a.mp3", "b.txt"]⟩).length).map
          (fun i => toString i) :=
  generator_yields_each_file_once 0 "root" ⟨["ESP"], fun _ => true, fun _ => ["a.mp3", "b.txt"]⟩
    (by decide)

/-- C8: `_generate_examples` is deterministic across runs — the shuffle is
seeded with the constant `4`, so the ambient entropy of the run does not
influence the yielded examples: two runs over the same directory contents
yield the same examples in the same order. -/
theorem generator_deterministic (entropy1 entropy2 : Nat) (archive_path : String)
    (fs : FS) :
    generate_examples entropy1 archive_path fs =
      generate_examples entropy2 archive_path fs :=
  rfl

/-- C4 (counterexample): the checkpoint passed to `trainer.train` is not
always `None` — when the output directory exists and contains
`checkpoint-500`, training is enabled and `--overwrite_output_dir` is not
set, `trainer.train` is called with that checkpoint. -/
theorem train_resumes_from_checkpoint :
    trainCheckpointArg ⟨true, ["checkpoint-500"], true, false, "model", false⟩ =
      .ok (some (some "checkpoint-500")) ∧
    (some "checkpoint-500" : Option String) ≠ none :=
  ⟨rfl, by simp⟩

/-- C4 (amended): when training runs, the checkpoint passed to
`trainer.train` is the last checkpoint of the output directory when one is
detected (training resumes from saved state); with no output directory it
is `model_name_or_path` when that is a directory and `None` otherwise. -/
theorem train_checkpoint_argument (env : MainEnv) (c : String)
    (ht : env.doTrain = true) :
    (env.outputDirIsDir = true → env.overwriteOutputDir = false →
      get_last_checkpoint env.outputDirEntries = some c →
      trainCheckpointArg env = .ok (some (some c))) ∧
    (env.outputDirIsDir = false →
      trainCheckpointArg env =
        .ok (some (if env.modelNameOrPathIsDir then some env.modelNameOrPath else none))) := by
  constructor
  · intro h1 h2 h3
    simp only [trainCheckpointArg, detectLastCheckpoint, h1, h2, ht, h3,
      Bool.not_false, Bool.and_true, Bool.and_self, if_true]
  · intro h1
    simp only [trainCheckpointArg, detectLastCheckpoint, h1, ht,
      Bool.false_and, Bool.if_false_left]
    simp

/-- Witness for the amended C4: resume from `checkpoint-500`, and a plain
`None` when there is no output directory and no local model path. -/
theorem train_checkpoint_argument_witness :
    trainCheckpointArg ⟨true, ["junk", "checkpoint-500"], true, false, "model", false⟩ =
      .ok (some (some "checkpoint-500")) ∧
    trainCheckpointArg ⟨false, [], true, false, "model", false⟩ = .ok (some none) :=
  ⟨(train_checkpoint_argument ⟨true, ["junk", "checkpoint-500"], true, false, "model", false⟩
      "checkpoint-500" rfl).1 rfl rfl (by decide),
   (train_checkpoint_argument ⟨false, [], true, false, "model", false⟩ "x" rfl).2 rfl⟩

/-- C5: `DidMain` raises `SystemExit` whenever the configured optimizer is
not `'adam'` or the configured loss function is not `'nllLoss'`; when it
does not exit, the optimizer is Adam with the configured `lr` and
`weight_decay` and the loss is negative log-likelihood. -/
theorem didmain_optimizer_loss_selection (cfg : DidConfig) :
    (cfg.general.optimizer ≠ "adam" →
      ∃ msg, didMainSetup cfg = .error (.systemExit msg)) ∧
    (cfg.general.loss_function ≠ "nllLoss" →
      ∃ msg, didMainSetup cfg = .error (.systemExit msg)) ∧
    (∀ s, didMainSetup cfg = .ok s →
      s.optimizer = Optim.adam cfg.adam.lr cfg.adam.weight_decay ∧
      s.loss = LossFn.nllLoss) := by
  refine ⟨?_, ?_, ?_⟩
  · intro h
    exact ⟨"you must specify optimizer for " ++ cfg.general.optimizer,
      by simp only [didMainSetup, if_neg h]⟩
  · intro h
    by_cases ho : cfg.general.optimizer = "adam"
    · exact ⟨"you must specify loss_function for " ++ cfg.general.loss_function,
        by simp only [didMainSetup, if_pos ho, if_neg h]⟩
    · exact ⟨"you must specify optimizer for " ++ cfg.general.optimizer,
        by simp only [didMainSetup, if_neg ho]⟩
  · intro s hs
    simp only [didMainSetup] at hs
    by_cases ho : cfg.general.optimizer = "adam"
    · rw [if_pos ho] at hs
      by_cases hl : cfg.general.loss_function = "nllLoss"
      · rw [if_pos hl] at hs
        cases Except.ok.inj hs
        exact ⟨rfl, rfl⟩
      · rw [if_neg hl] at hs
        exact absurd hs (by simp)
    · rw [if_neg ho] at hs
      exact absurd hs (by simp)

/-- Witness for C5: `'sgd'` exits, `'mse'` exits, and the accepted
configuration yields Adam with the configured parameters and `nllLoss`. -/
theorem didmain_optimizer_loss_selection_witness :
    (∃ msg, didMainSetup ⟨⟨"sgd", "nllLoss"⟩, ⟨0.001, 0.01⟩, 0⟩ =
      .error (.systemExit msg)) ∧
    (∃ msg, didMainSetup ⟨⟨"adam", "mse"⟩, ⟨0.001, 0.01⟩, 0⟩ =
      .error (.systemExit msg)) ∧
    ((⟨false, Optim.adam 0.001 0.01, false, LossFn.nllLoss⟩ : DidSetup).optimizer =
        Optim.adam 0.001 0.01 ∧
     (⟨false, Optim.adam 0.001 0.01, false, LossFn.nllLoss⟩ : DidSetup).loss =
        LossFn.nllLoss) :=
  ⟨(didmain_optimizer_loss_selection ⟨⟨"sgd", "nllLoss"⟩, ⟨0.001, 0.01⟩, 0⟩).1 (by decide),
   (didmain_optimizer_loss_selection ⟨⟨"adam", "mse"⟩, ⟨0.001, 0.01⟩, 0⟩).2.1 (by decide),
   (didmain_optimizer_loss_selection ⟨⟨"adam", "nllLoss"⟩, ⟨0.001, 0.01⟩, 0⟩).2.2
     ⟨false, Optim.adam 0.001 0.01, false, LossFn.nllLoss⟩ rfl⟩

/-- C6: `run_classifier`'s `main` accepts exactly a program name plus one
argument ending in `.json` — then the arguments are parsed from that JSON
file — and exits with status 1 on every other argument vector. -/
theorem main_requires_single_json_argument (argv : List String) :
    (∀ prog a, argv = [prog, a] → pyEndsWith a ".json" = true →
      mainArgSource argv = .ok a) ∧
    (∀ prog a, argv = [prog, a] → pyEndsWith a ".json" = false →
      mainArgSource argv = .error 1) ∧
    ((∀ prog a, argv ≠ [prog, a]) → mainArgSource argv = .error 1) := by
  refine ⟨?_, ?_, ?_⟩
  · rintro prog a rfl h
    simp [mainArgSource, h]
  · rintro prog a rfl h
    simp [mainArgSource, h]
  · intro h
    rcases argv with _ | ⟨x, _ | ⟨y, _ | ⟨z, t⟩⟩⟩
    · rfl
    · rfl
    · exact absurd rfl (h x y)
    · simp [mainArgSource]

/-- Witness for C6 on three concrete argument vectors. -/
theorem main_requires_single_json_argument_witness :
    mainArgSource ["run_classifier.py", "config.json"] = .ok "config.json" ∧
    mainArgSource ["run_classifier.py", "config.txt"] = .error 1 ∧
    mainArgSource ["run_classifier.py"] = .error 1 :=
  ⟨(main_requires_single_json_argument ["run_classifier.py", "config.json"]).1
     "run_classifier.py" "config.json" rfl (by decide),
   (main_requires_single_json_argument ["run_classifier.py", "config.txt"]).2.1
     "run_classifier.py" "config.txt" rfl (by decide),
   (main_requires_single_json_argument ["run_classifier.py"]).2.2
     (by intro p a h; simp at h)⟩

/-- C7: in `DidMain`, the model is wrapped with `DataParallelModel` and the
loss with `DataParallelCriterion` exactly when more than one CUDA device
is available. -/
theorem didmain_wraps_iff_multi_gpu (cfg : DidConfig) (s : DidSetup)
    (hs : didMainSetup cfg = .ok s) :
    (s.modelWrapped = true ↔ 1 < cfg.cudaDeviceCount) ∧
    (s.lossWrapped = true ↔ 1 < cfg.cudaDeviceCount) := by
  simp only [didMainSetup] at hs
  by_cases ho : cfg.general.optimizer = "adam"
  · rw [if_pos ho] at hs
    by_cases hl : cfg.general.loss_function = "nllLoss"
    · rw [if_pos hl] at hs
      cases Except.ok.inj hs
      constructor <;> simp
    · rw [if_neg hl] at hs
      exact absurd hs (by simp)
  · rw [if_neg ho] at hs
    exact absurd hs (by simp)

/-- Witness for C7 with two CUDA devices: both wrapping flags hold. -/
theorem didmain_wraps_iff_multi_gpu_witness :
    ((⟨true, Optim.adam 0.001 0.01, true, LossFn.nllLoss⟩ : DidSetup).modelWrapped = true ↔
      1 < (⟨⟨"adam", "nllLoss"⟩, ⟨0.001, 0.01⟩, 2⟩ : DidConfig).cudaDeviceCount) ∧
    ((⟨true, Optim.adam 0.001 0.01, true, LossFn.nllLoss⟩ : DidSetup).lossWrapped = true ↔
      1 < (⟨⟨"adam", "nllLoss"⟩, ⟨0.001, 0.01⟩, 2⟩ : DidConfig).cudaDeviceCount) :=
  didmain_wraps_iff_multi_gpu ⟨⟨"adam", "nllLoss"⟩, ⟨0.001, 0.01⟩, 2⟩
    ⟨true, Optim.adam 0.001 0.01, true, LossFn.nllLoss⟩ rfl

/-- C10: `speech_file_to_array_fn` reads the first
`window_length * 16000` samples of a `.wav` file via `sf.read`, truncates
the decoded audio of an `.mp3` file to its first `window_length * 16000`
samples, and fails with an unbound-variable error on every other file
name, before any `speech` field is produced. -/
theorem speech_file_extension_cases (window_length : Nat) (batch : SpeechRecord) :
    (pyEndsWith batch.file.name ".wav" = true →
      speech_file_to_array_fn window_length batch =
        .ok { batch with
              speech := some (librosa_resample
                (batch.file.samples.take (window_length * 16000))
                batch.file.rate 16000),
              sampling_rate := some 16000,
              parent := some batch.label }) ∧
    (pyEndsWith batch.file.name ".wav" = false →
      pyEndsWith batch.file.name ".mp3" = true →
      speech_file_to_array_fn window_length batch =
        .ok { batch with
              speech := some (librosa_resample
                (batch.file.samples.take (window_length * 16000))
                batch.file.rate 16000),
              sampling_rate := some 16000,
              parent := some batch.label }) ∧
    (pyEndsWith batch.file.name ".wav" = false →
      pyEndsWith batch.file.name ".mp3" = false →
      speech_file_to_array_fn window_length batch =
        .error (.unboundLocalError "speech_array")) := by
  refine ⟨?_, ?_, ?_⟩
  · intro h1
    simp [speech_file_to_array_fn, h1, sf_read]
  · intro h1 h2
    simp [speech_file_to_array_fn, h1, h2, torchaudio_load]
  · intro h1 h2
    simp [speech_file_to_array_fn, h1, h2]

/-- Witness for C10 on a `.wav`, an `.mp3` and an `.ogg` record. -/
theorem speech_file_extension_cases_witness :
    speech_file_to_array_fn 2 ⟨⟨"a.wav", [], 16000⟩, "ESP", none, none, none⟩ =
      .ok ⟨⟨"a.wav", [], 16000⟩, "ESP",
           some (librosa_resample (([] : List Float).take (2 * 16000)) 16000 16000),
           some 16000, some "ESP"⟩ ∧
    speech_file_to_array_fn 2 ⟨⟨"a.mp3", [], 44100⟩, "ESP", none, none, none⟩ =
      .ok ⟨⟨"a.mp3", [], 44100⟩, "ESP",
           some (librosa_resample (([] : List Float).take (2 * 16000)) 44100 16000),
           some 16000, some "ESP"⟩ ∧
    speech_file_to_array_fn 2 ⟨⟨"a.ogg", [], 16000⟩, "ESP", none, none, none⟩ =
      .error (.unboundLocalError "speech_array") :=
  ⟨(speech_file_extension_cases 2 ⟨⟨"a.wav", [], 16000⟩, "ESP", none, none, none⟩).1
     (by decide),
   (speech_file_extension_cases 2 ⟨⟨"a.mp3", [], 44100⟩, "ESP", none, none, none⟩).2.1
     (by decide) (by decide),
   (speech_file_extension_cases 2 ⟨⟨"a.ogg", [], 16000⟩, "ESP", none, none, none⟩).2.2
     (by decide) (by decide)⟩

end W2vDid
